import Mathlib

set_option maxRecDepth 8192

/-!
Shallow embedding of `src/pcap/server.go` (package `pcap`) of the ikago
server: the ingress handler (`handleListen` with `handshake`), the egress
handler (`handleUpstream`) and the port allocator (`distPort`), together
with the shared state of the `Server` struct.

Conventions of the embedding:
* machine integers are `Nat` with an explicit reduction modulo `2^8`,
  `2^16` or `2^32` exactly where Go overflow semantics matter
  (`uint8` TTL subtraction, `uint16` id and port cursors, `uint32`
  sequence and acknowledgement numbers);
* Go maps are total functions into `Option`; a read without the comma-ok
  form uses the Go zero-value default (`mapGet`), a read with comma-ok is
  an `Option` match, an assignment is `mapUpd` (which creates the entry);
* IP addresses are carried in their canonical string form, as the source
  keys all its tables by `net.IP.String()`; `net.ParseIP` of such a string
  is the identity of this representation;
* capture handles are identified by `Nat`; calls to `WritePacketData` and
  the diagnostic print statements are recorded in an event list;
* the handlers receive the already parsed `packetIndicator` (the parse of
  the raw frame happens in code outside this file; a frame whose parse
  fails is dropped with no state change before either handler body runs).
-/

/-- The `gopacket.LayerType` values that occur in the server. `zero` is the
zero value of the Go type: the value of a declared but never assigned
variable of type `gopacket.LayerType`. -/
inductive LayerKind where
  | zero
  | ethernet
  | loopback
  | ipv4
  | ipv6
  | tcp
  | udp
deriving DecidableEq

/-- Modelled from the spec: a capture endpoint (§3 Device) with its
loopback flag, hardware address and bound addresses.  The server code only
consults the loopback flag, the hardware address, `IPv4Addr().IP`,
`IPv6Addr().IP` and `IPAddr().IP`; an absent address is the empty string
(the model of a `nil` `net.IP`), and `ipAddrIsV4` is the address family of
`IPAddr().IP`, the first bound address. -/
structure Device where
  IsLoop : Bool
  HardwareAddr : String
  ipv4 : String
  ipv6 : String
  ipAddrIsV4 : Bool
deriving DecidableEq

/-- A built link layer: kind plus source and destination hardware
addresses (empty for loopback, which carries only a family word). -/
structure LinkLayer where
  kind : LayerKind
  srcMAC : String
  dstMAC : String
deriving DecidableEq

/-- A built network layer: kind, addresses, IPv4 identification and
TTL / hop limit. -/
structure NetLayer where
  kind : LayerKind
  SrcIP : String
  DstIP : String
  Id : Nat
  TTL : Nat
deriving DecidableEq

/-- A built transport layer: kind, ports and, for TCP, sequence and
acknowledgement numbers and the SYN / ACK flags. -/
structure TransLayer where
  kind : LayerKind
  SrcPort : Nat
  DstPort : Nat
  Seq : Nat
  Ack : Nat
  SYN : Bool
  ACK : Bool
deriving DecidableEq

/-- Modelled from the spec: `build_loopback()` (§4.1), family word only. -/
def createLinkLayerLoopback : LinkLayer := ⟨LayerKind.loopback, "", ""⟩

/-- Modelled from the spec: `build_ethernet(src_hw, dst_hw, payload_ref)`
(§4.1); the EtherType is derived from the network layer and not modelled. -/
def createLinkLayerEthernet (srcHW dstHW : String) : LinkLayer :=
  ⟨LayerKind.ethernet, srcHW, dstHW⟩

/-- Modelled from the spec: `build_ipv4(src, dst, id, ttl, payload_ref)`
(§4.1); checksum and length fields are computed on serialization and not
modelled.  The builder places the given ttl into the header as received
and defines no failure for it. -/
def createNetworkLayerIPv4 (src dst : String) (id ttl : Nat) : NetLayer :=
  ⟨LayerKind.ipv4, src, dst, id, ttl⟩

/-- Modelled from the spec: `build_ipv6(src, dst, payload_ref)` (§4.1);
hop limit defaulted to a conservative value, no id is preserved. -/
def createNetworkLayerIPv6 (src dst : String) : NetLayer :=
  ⟨LayerKind.ipv6, src, dst, 0, 64⟩

/-- Modelled from the spec: `build_tcp_synack` (§4.1), SYN and ACK set. -/
def createTCPLayerSYNACK (srcPort dstPort seq ack : Nat) : TransLayer :=
  ⟨LayerKind.tcp, srcPort, dstPort, seq, ack, true, true⟩

/-- Modelled from the spec: `build_tcp_data` (§4.1), ACK set, no SYN. -/
def createTransportLayerTCP (srcPort dstPort seq ack : Nat) : TransLayer :=
  ⟨LayerKind.tcp, srcPort, dstPort, seq, ack, false, true⟩

/-- The result of `serialize` (§4.1): a contiguous frame, abstracted to
its layer field values and the byte length of the application payload. -/
structure EmittedFrame where
  link : LinkLayer
  net : NetLayer
  trans : TransLayer
  payloadLen : Nat
deriving DecidableEq

/-- Modelled from the spec: `serialize(link, network, transport, app)`
(§4.1); length and checksum computation is not modelled. -/
def serialize (l : LinkLayer) (n : NetLayer) (t : TransLayer)
    (payloadLen : Nat) : EmittedFrame :=
  ⟨l, n, t, payloadLen⟩

/-- The flow key `quintuple` of the source, with IPs in string form. -/
structure quintuple where
  SrcIP : String
  SrcPort : Nat
  DstIP : String
  DstPort : Nat
  Protocol : LayerKind
deriving DecidableEq

/-- The reverse NAT entry `encappedPacketSrc` of the source: carrier
endpoint, original inner source identity and the listen handle. -/
structure encappedPacketSrc where
  SrcIP : String
  SrcPort : Nat
  EncappedSrcIP : String
  EncappedSrcPort : Nat
  Handle : Nat
deriving DecidableEq

/-- Modelled from the spec: the parsed view of an encapsulated IP packet
(§3 EncappedIndicator), as produced by `parse_encapped` on the carrier
payload.  Field values are the snapshots taken at parse time; the raw
mutable layer objects referenced by the indicator are represented by the
rewritten field values placed into the serialized frame. -/
structure innerPacket where
  NetworkLayerType : LayerKind
  SrcIP : String
  DstIP : String
  Id : Nat
  TTL : Nat
  TransportLayerType : LayerKind
  SrcPort : Nat
  DstPort : Nat
  Seq : Nat
  Ack : Nat
  SYN : Bool
  ACK : Bool
  payloadLen : Nat
deriving DecidableEq

/-- Modelled from the spec: the application payload of a carrier segment,
as the handler sees it: its byte length (`LayerContents()`) and the result
of parsing it as a raw IP packet (`parse_encapped`, §4.1), with `none`
standing for a ParseError. -/
structure appPayload where
  len : Nat
  parsed : Option innerPacket
deriving DecidableEq

/-- Modelled from the spec: the parsed view of a captured frame
(§3 PacketIndicator).  `contentsLen` is the byte length of
`indicator.Contents()`, the serialized network, transport and application
contents used as the carrier payload on the egress path. -/
structure packetIndicator where
  NetworkLayerType : LayerKind
  SrcIP : String
  DstIP : String
  Id : Nat
  TTL : Nat
  TransportLayerType : LayerKind
  SrcPort : Nat
  DstPort : Nat
  Seq : Nat
  Ack : Nat
  SYN : Bool
  ApplicationLayer : Option appPayload
  contentsLen : Nat
deriving DecidableEq

/-- Modelled from the spec: `parse_encapped` (§4.1) applied to a carrier
payload, returning the parsed inner packet or a ParseError (`none`). -/
def parseEncappedPacket (a : appPayload) : Option innerPacket := a.parsed

/-- The string `"ip:port"` built by `SrcAddr()` / `fmt.Sprintf("%s:%d")`. -/
def addrStr (ip : String) (port : Nat) : String := ip ++ ":" ++ toString port

/-- `indicator.SrcAddr()`. -/
def packetIndicator.SrcAddr (f : packetIndicator) : String :=
  addrStr f.SrcIP f.SrcPort

/-- A Go map assignment `m[k] = v`: creates or overwrites the entry. -/
def mapUpd {α β : Type} [DecidableEq α] (m : α → Option β) (k : α) (v : β) :
    α → Option β :=
  fun x => if x = k then some v else m x

/-- A Go map read without the comma-ok form: zero-value default. -/
def mapGet {α : Type} (m : α → Option Nat) (k : α) : Nat := (m k).getD 0

/-- An observable action of a handler: a `WritePacketData` on a handle, an
error print or an informational print. -/
inductive Event where
  | emit (handle : Nat) (frame : EmittedFrame)
  | logError (msg : String)
  | logInfo (msg : String)
deriving DecidableEq

/-- The shared state of the `Server` struct (the fields the two handlers
touch; the listen handles appear as the `handle` argument of
`handleListen` and `upHandle` identifies the upstream handle). -/
structure Server where
  ListenPort : Nat
  UpDev : Device
  GatewayDev : Device
  upHandle : Nat
  seqs : String → Option Nat
  acks : String → Option Nat
  id : Nat
  port : Nat
  portDist : quintuple → Option Nat
  nat : quintuple → Option encappedPacketSrc

/-- `func (p *Server) distPort() uint16 { return 49152 + p.port%16384 }` -/
def Server.distPort (p : Server) : Nat := 49152 + p.port % 16384

/-- The forward flow key `qPortDist` built at lines 277-283: inner source
identity against the carrier source identity. -/
def qForward (ind : packetIndicator) (enc : innerPacket) : quintuple :=
  ⟨enc.SrcIP, enc.SrcPort, ind.SrcIP, ind.SrcPort, enc.TransportLayerType⟩

/-- The reverse NAT key `qNAT` built at lines 350-356: the upstream
device's IPv4 address in string form against the inner destination; the
source port field is the snapshot `encappedIndicator.SrcPort`. -/
def qReverse (p : Server) (enc : innerPacket) : quintuple :=
  ⟨p.UpDev.ipv4, enc.SrcPort, enc.DstIP, enc.DstPort, enc.TransportLayerType⟩

/-- The reverse NAT entry `ps` built at lines 357-363. -/
def natEntry (ind : packetIndicator) (enc : innerPacket) (handle : Nat) :
    encappedPacketSrc :=
  ⟨ind.SrcIP, ind.SrcPort, enc.SrcIP, enc.SrcPort, handle⟩

/-- `func (p *Server) handshake(indicator *packetIndicator) error`,
lines 145-230.  Sets `seqs[src] = 0` and `acks[src] = Seq+1`, builds the
SYN+ACK carrier segment and writes it to the upstream handle.  The network
layer family follows `indicator.DstIP.To4() != nil`, which for a parsed
frame is its network layer kind. -/
def handshake (p : Server) (ind : packetIndicator) : Server × List Event :=
  let srcAddr := ind.SrcAddr
  let seqs1 := mapUpd p.seqs srcAddr 0
  let acks1 := mapUpd p.acks srcAddr ((ind.Seq + 1) % 4294967296)
  let newTransportLayer :=
    createTCPLayerSYNACK p.ListenPort ind.SrcPort 0 ((ind.Seq + 1) % 4294967296)
  let isV4 := ind.NetworkLayerType = LayerKind.ipv4
  let newNetworkLayer :=
    if isV4 then createNetworkLayerIPv4 ind.DstIP ind.SrcIP p.id 128
    else createNetworkLayerIPv6 ind.DstIP ind.SrcIP
  let newLinkLayer :=
    if p.UpDev.IsLoop then createLinkLayerLoopback
    else createLinkLayerEthernet p.UpDev.HardwareAddr p.GatewayDev.HardwareAddr
  let data := serialize newLinkLayer newNetworkLayer newTransportLayer 0
  let id1 := if isV4 then (p.id + 1) % 65536 else p.id
  ({ p with seqs := seqs1, acks := acks1, id := id1 },
   [Event.emit p.upHandle data])

/-- The tail of the ingress data path, lines 325-380: link layer choice,
reverse NAT insertion, serialization of the rewritten inner packet (its
transport source port mutated in place to the distributed port) and the
write to the upstream handle. -/
def ingressEmit (p : Server) (ind : packetIndicator) (enc : innerPacket)
    (handle distPort : Nat) (newNetworkLayer : NetLayer) : Server × List Event :=
  let newLinkLayer :=
    if p.UpDev.IsLoop then createLinkLayerLoopback
    else createLinkLayerEthernet p.UpDev.HardwareAddr p.GatewayDev.HardwareAddr
  let ps := natEntry ind enc handle
  let p1 := { p with nat := mapUpd p.nat (qReverse p enc) ps }
  let newTransportLayer : TransLayer :=
    ⟨enc.TransportLayerType, distPort, enc.DstPort, enc.Seq, enc.Ack, enc.SYN, enc.ACK⟩
  let data := serialize newLinkLayer newNetworkLayer newTransportLayer enc.payloadLen
  (p1, [Event.emit p.upHandle data, Event.logInfo "Redirect an inbound packet"])

/-- `func (p *Server) handleListen(packet gopacket.Packet, handle *pcap.Handle)`,
lines 232-381, from the point where the packet has been parsed. -/
def handleListen (p : Server) (ind : packetIndicator) (handle : Nat) :
    Server × List Event :=
  if ind.SYN then
    let r := handshake p ind
    (r.1, r.2 ++ [Event.logInfo "Connect from client"])
  else
    match ind.ApplicationLayer with
    | none => (p, [])
    | some app =>
      let srcAddr := ind.SrcAddr
      let p1 := { p with
        acks := mapUpd p.acks srcAddr ((mapGet p.acks srcAddr + app.len) % 4294967296) }
      match parseEncappedPacket app with
      | none => (p1, [Event.logError "handle listen: parse encapped packet error"])
      | some enc =>
        let qPortDist := qForward ind enc
        let dist :=
          match p1.portDist qPortDist with
          | some d => (d, p1.port)
          | none => (p1.distPort, (p1.port + 1) % 65536)
        let p2 := { p1 with port := dist.2 }
        if enc.TransportLayerType = LayerKind.tcp ∨
            enc.TransportLayerType = LayerKind.udp then
          match enc.NetworkLayerType with
          | LayerKind.ipv4 =>
            ingressEmit p2 ind enc handle dist.1
              (createNetworkLayerIPv4 p2.UpDev.ipv4 enc.DstIP enc.Id
                ((enc.TTL + 255) % 256))
          | LayerKind.ipv6 =>
            ingressEmit p2 ind enc handle dist.1
              (createNetworkLayerIPv6 p2.UpDev.ipv6 enc.DstIP)
          | _ => (p2, [Event.logError "handle listen: create network layer type not support"])
        else (p2, [Event.logError "handle listen: create transport layer type not support"])

/-- The tail of the egress path, lines 498-524: serialization of the
carrier segment, the write to the recorded listen handle, the seq advance
by the carrier payload length and the IPv4 id increment.  In the source
this code is only reachable through the link layer switch. -/
def upstreamEmit (p : Server) (ind : packetIndicator) (ps : encappedPacketSrc)
    (preLog : List Event) (newNetworkLayer : NetLayer)
    (newLinkLayer : LinkLayer) : Server × List Event :=
  let addr := addrStr ps.SrcIP ps.SrcPort
  let newTransportLayer :=
    createTransportLayerTCP p.ListenPort ps.SrcPort (mapGet p.seqs addr) (mapGet p.acks addr)
  let data := serialize newLinkLayer newNetworkLayer newTransportLayer ind.contentsLen
  let seqs1 := mapUpd p.seqs addr ((mapGet p.seqs addr + ind.contentsLen) % 4294967296)
  let id1 := if newNetworkLayer.kind = LayerKind.ipv4 then (p.id + 1) % 65536 else p.id
  ({ p with seqs := seqs1, id := id1 },
   preLog ++ [Event.emit ps.Handle data, Event.logInfo "Redirect an outbound packet"])

/-- `func (p *Server) handleUpstream(packet gopacket.Packet)`, lines
383-525, from the point where the packet has been parsed.  The NAT-back
rewrites at lines 414-441 mutate the parsed layers owned by the capture
library, not the server state; the default arm of the network layer
switch logs without returning (line 441).  `newLinkLayerType` is declared
at line 390 and never assigned on this path, so the switch at line 483
consults the zero value of `gopacket.LayerType`. -/
def handleUpstream (p : Server) (ind : packetIndicator) : Server × List Event :=
  let q : quintuple := ⟨ind.DstIP, ind.DstPort, ind.SrcIP, ind.SrcPort, ind.TransportLayerType⟩
  match p.nat q with
  | none => (p, [])
  | some ps =>
    if ind.TransportLayerType = LayerKind.tcp ∨
        ind.TransportLayerType = LayerKind.udp then
      let natLog : List Event :=
        if ind.NetworkLayerType = LayerKind.ipv4 ∨
            ind.NetworkLayerType = LayerKind.ipv6 then []
        else [Event.logError "handle upstream: create encapped network layer type not support"]
      let isIPv4 := p.GatewayDev.ipAddrIsV4
      let upDevIP := if isIPv4 then p.UpDev.ipv4 else p.UpDev.ipv6
      if upDevIP = "" then
        (p, natLog ++ [Event.logError "handle upstream: ip version transition not support"])
      else
        let newNetworkLayer :=
          if isIPv4 then createNetworkLayerIPv4 upDevIP ps.SrcIP p.id ((ind.TTL + 255) % 256)
          else createNetworkLayerIPv6 upDevIP ps.SrcIP
        let newLinkLayerType := LayerKind.zero
        match newLinkLayerType with
        | LayerKind.loopback =>
          upstreamEmit p ind ps natLog newNetworkLayer createLinkLayerLoopback
        | LayerKind.ethernet =>
          upstreamEmit p ind ps natLog newNetworkLayer
            (createLinkLayerEthernet p.UpDev.HardwareAddr p.GatewayDev.HardwareAddr)
        | _ => (p, natLog ++ [Event.logError "handle upstream: create link layer type not support"])
    else (p, [Event.logError "handle upstream: create encapped transport layer type not support"])

/-- Sequential processing of a list of frames by the ingress handler on
one listen handle. -/
def runListen (p : Server) (handle : Nat) : List packetIndicator → Server
  | [] => p
  | f :: fs => runListen (handleListen p f handle).1 handle fs

/-- The SYN+ACK frame that `handshake` serializes and writes. -/
def synackFrame (p : Server) (ind : packetIndicator) : EmittedFrame :=
  serialize
    (if p.UpDev.IsLoop then createLinkLayerLoopback
     else createLinkLayerEthernet p.UpDev.HardwareAddr p.GatewayDev.HardwareAddr)
    (if ind.NetworkLayerType = LayerKind.ipv4 then
       createNetworkLayerIPv4 ind.DstIP ind.SrcIP p.id 128
     else createNetworkLayerIPv6 ind.DstIP ind.SrcIP)
    (createTCPLayerSYNACK p.ListenPort ind.SrcPort 0 ((ind.Seq + 1) % 4294967296))
    0

/-- The server-side source port the ingress handler uses for an inner
flow in state `p`: the forward table entry when present, otherwise the
next distributed port. -/
def ingressPortOf (p : Server) (ind : packetIndicator) (enc : innerPacket) : Nat :=
  match p.portDist (qForward ind enc) with
  | some d => d
  | none => p.distPort

/-- The frame the ingress data path serializes and writes for a fully
processed encapsulated packet. -/
def ingressFrame (p : Server) (ind : packetIndicator) (enc : innerPacket) :
    EmittedFrame :=
  serialize
    (if p.UpDev.IsLoop then createLinkLayerLoopback
     else createLinkLayerEthernet p.UpDev.HardwareAddr p.GatewayDev.HardwareAddr)
    (if enc.NetworkLayerType = LayerKind.ipv4 then
       createNetworkLayerIPv4 p.UpDev.ipv4 enc.DstIP enc.Id ((enc.TTL + 255) % 256)
     else createNetworkLayerIPv6 p.UpDev.ipv6 enc.DstIP)
    ⟨enc.TransportLayerType, ingressPortOf p ind enc, enc.DstPort, enc.Seq, enc.Ack,
      enc.SYN, enc.ACK⟩
    enc.payloadLen

/-- A carrier data segment that the ingress pipeline fully processes:
no SYN, a payload that parses and supported inner layer kinds. -/
def validData (ind : packetIndicator) : Prop :=
  ind.SYN = false ∧ ∃ app enc, ind.ApplicationLayer = some app ∧ app.parsed = some enc ∧
    (enc.TransportLayerType = LayerKind.tcp ∨ enc.TransportLayerType = LayerKind.udp) ∧
    (enc.NetworkLayerType = LayerKind.ipv4 ∨ enc.NetworkLayerType = LayerKind.ipv6)

/-- The inner flow key of a carrier segment, when its payload parses. -/
def innerKey (ind : packetIndicator) : Option quintuple :=
  match ind.ApplicationLayer with
  | none => none
  | some app =>
    match app.parsed with
    | none => none
    | some enc => some (qForward ind enc)

/-! Concrete test fixtures, following the concrete scenarios of §8 of the
spec: a server listening on 8080 at 192.0.2.1 with upstream address
198.51.100.1, a client at 10.0.0.2:40000 and an inner UDP flow
10.0.0.2:55555 to 8.8.8.8:53. -/

/-- The upstream device of the sample server. -/
def sampleUpDev : Device := ⟨false, "0a-bb", "198.51.100.1", "fd00::1", true⟩

/-- The gateway device of the sample server. -/
def sampleGateway : Device := ⟨false, "0c-dd", "198.51.100.254", "fd00::ff", true⟩

/-- A freshly opened sample server: all tables empty, counters zero. -/
def srv0 : Server :=
  ⟨8080, sampleUpDev, sampleGateway, 0, fun _ => none, fun _ => none, 0, 0,
   fun _ => none, fun _ => none⟩

/-- The inner IPv4+UDP packet of scenario 2 of §8. -/
def inner0 : innerPacket :=
  ⟨LayerKind.ipv4, "10.0.0.2", "8.8.8.8", 7, 64, LayerKind.udp, 55555, 53, 0, 0,
   false, false, 12⟩

/-- The carrier data segment delivering `inner0`. -/
def frame0 : packetIndicator :=
  ⟨LayerKind.ipv4, "10.0.0.2", "192.0.2.1", 3, 64, LayerKind.tcp, 40000, 8080, 43, 1,
   false, some ⟨40, some inner0⟩, 72⟩

/-- An inner IPv4+UDP packet identical to `inner0` except that its TTL is
already 0, so that the rebuilt TTL underflows. -/
def innerT : innerPacket :=
  ⟨LayerKind.ipv4, "10.0.0.2", "8.8.8.8", 9, 0, LayerKind.udp, 55555, 53, 0, 0,
   false, false, 12⟩

/-- The carrier data segment delivering `innerT`. -/
def frameT : packetIndicator :=
  ⟨LayerKind.ipv4, "10.0.0.2", "192.0.2.1", 4, 64, LayerKind.tcp, 40000, 8080, 43, 1,
   false, some ⟨40, some innerT⟩, 72⟩

/-- A second distinct inner flow (scenario 4 of §8). -/
def inner1 : innerPacket :=
  ⟨LayerKind.ipv4, "10.0.0.2", "1.1.1.1", 8, 64, LayerKind.udp, 55556, 53, 0, 0,
   false, false, 12⟩

/-- The carrier data segment delivering `inner1`. -/
def frame1 : packetIndicator :=
  ⟨LayerKind.ipv4, "10.0.0.2", "192.0.2.1", 5, 64, LayerKind.tcp, 40000, 8080, 83, 1,
   false, some ⟨40, some inner1⟩, 72⟩

/-- An inner IPv6+TCP packet carried over the same IPv4 carrier session. -/
def inner6 : innerPacket :=
  ⟨LayerKind.ipv6, "fd00::2", "2001:db8::5", 0, 64, LayerKind.tcp, 443, 8443, 5, 6,
   false, true, 20⟩

/-- The carrier data segment delivering `inner6`. -/
def frame6 : packetIndicator :=
  ⟨LayerKind.ipv4, "10.0.0.2", "192.0.2.1", 6, 64, LayerKind.tcp, 40000, 8080, 99, 1,
   false, some ⟨60, some inner6⟩, 92⟩

/-- The sample server after the reverse NAT entry for `inner0` has been
installed by the ingress handler. -/
def srv1 : Server :=
  { srv0 with nat := mapUpd srv0.nat (qReverse srv0 inner0) (natEntry frame0 inner0 7) }

/-- The upstream reply of scenario 3 of §8, addressed to the identity the
reverse NAT table actually recorded. -/
def reply0 : packetIndicator :=
  ⟨LayerKind.ipv4, "8.8.8.8", "198.51.100.1", 21, 54, LayerKind.udp, 53, 55555, 0, 0,
   false, none, 58⟩

/-- An upstream reply with no reverse NAT entry. -/
def replyMiss : packetIndicator :=
  ⟨LayerKind.ipv4, "9.9.9.9", "198.51.100.1", 22, 54, LayerKind.udp, 53, 49152, 0, 0,
   false, none, 58⟩

/-- A client SYN with initial sequence number 5. -/
def synFrameA : packetIndicator :=
  ⟨LayerKind.ipv4, "10.0.0.9", "192.0.2.1", 1, 64, LayerKind.tcp, 4242, 8080, 5, 0,
   true, none, 40⟩

/-- A second SYN from the same client with initial sequence number 0. -/
def synFrameB : packetIndicator := { synFrameA with Seq := 0 }

/-- A carrier data segment from a client that never sent a SYN, whose
payload does not parse as an IP packet. -/
def dataNoSyn : packetIndicator :=
  ⟨LayerKind.ipv4, "10.0.0.8", "192.0.2.1", 2, 64, LayerKind.tcp, 4343, 8080, 77, 1,
   false, some ⟨20, none⟩, 60⟩

/-! Helper lemmas shared by the claim theorems. -/

lemma mapGet_upd {α : Type} [DecidableEq α] (m : α → Option Nat) (k x : α) (v : Nat) :
    mapGet (mapUpd m k v) x = if x = k then v else mapGet m x := by
  unfold mapGet mapUpd
  by_cases h : x = k <;> simp [h]

lemma mapUpd_self {α β : Type} [DecidableEq α] (m : α → Option β) (k : α) (v : β) :
    mapUpd m k v k = some v := by
  simp [mapUpd]

/-- Closed form of the ingress data path on a fully processed segment. -/
lemma handleListen_data (p : Server) (ind : packetIndicator) (handle : Nat)
    (app : appPayload) (enc : innerPacket)
    (hS : ind.SYN = false) (ha : ind.ApplicationLayer = some app)
    (hp : app.parsed = some enc)
    (ht : enc.TransportLayerType = LayerKind.tcp ∨ enc.TransportLayerType = LayerKind.udp)
    (hn : enc.NetworkLayerType = LayerKind.ipv4 ∨ enc.NetworkLayerType = LayerKind.ipv6) :
    (handleListen p ind handle).2 =
      [Event.emit p.upHandle (ingressFrame p ind enc),
       Event.logInfo "Redirect an inbound packet"] ∧
    (handleListen p ind handle).1.nat =
      mapUpd p.nat (qReverse p enc) (natEntry ind enc handle) ∧
    (handleListen p ind handle).1.acks =
      mapUpd p.acks ind.SrcAddr ((mapGet p.acks ind.SrcAddr + app.len) % 4294967296) ∧
    (handleListen p ind handle).1.seqs = p.seqs ∧
    (handleListen p ind handle).1.portDist = p.portDist ∧
    (handleListen p ind handle).1.port =
      (match p.portDist (qForward ind enc) with
       | some _ => p.port
       | none => (p.port + 1) % 65536) ∧
    (handleListen p ind handle).1.upHandle = p.upHandle ∧
    (handleListen p ind handle).1.UpDev = p.UpDev ∧
    (handleListen p ind handle).1.ListenPort = p.ListenPort ∧
    (handleListen p ind handle).1.GatewayDev = p.GatewayDev ∧
    (handleListen p ind handle).1.id = p.id := by
  rcases ht with ht | ht <;> rcases hn with hn | hn <;>
    cases hpd : p.portDist (qForward ind enc) <;>
      simp [handleListen, parseEncappedPacket, ingressEmit, ingressFrame, ingressPortOf,
        hS, ha, hp, ht, hn, hpd, Server.distPort, qReverse]

/-- The egress handler never changes the server state in the source as it
stands: every reachable branch returns before the write. -/
lemma handleUpstream_state (p : Server) (ind : packetIndicator) :
    (handleUpstream p ind).1 = p := by
  simp only [handleUpstream]
  split
  · rfl
  · split
    · split <;> split <;> rfl
    · rfl

/-- On a non-SYN frame the ingress handler leaves `seqs` unchanged and
either leaves `acks` unchanged or advances the client entry by the
payload length. -/
lemma handleListen_acks_seqs (p : Server) (ind : packetIndicator) (handle : Nat)
    (hS : ind.SYN = false) :
    (handleListen p ind handle).1.seqs = p.seqs ∧
    ((handleListen p ind handle).1.acks = p.acks ∨
      ∃ app, ind.ApplicationLayer = some app ∧
        (handleListen p ind handle).1.acks =
          mapUpd p.acks ind.SrcAddr ((mapGet p.acks ind.SrcAddr + app.len) % 4294967296)) := by
  unfold handleListen
  cases happ : ind.ApplicationLayer with
  | none => simp [hS]
  | some app =>
    cases hpar : app.parsed with
    | none =>
      refine ⟨?_, Or.inr ⟨app, rfl, ?_⟩⟩ <;>
        simp [hS, parseEncappedPacket, hpar]
    | some enc =>
      simp only [hS, Bool.false_eq_true, if_false, parseEncappedPacket, hpar]
      refine ⟨?_, Or.inr ⟨app, rfl, ?_⟩⟩ <;>
        · split
          · split <;> simp [ingressEmit]
          · simp

/-- Invariants of a run of valid data segments: the port cursor advances
by one per segment modulo 2^16, the forward table stays untouched and the
configuration fields are preserved. -/
lemma runListen_frame (handle : Nat) (fs : List packetIndicator) :
    ∀ p : Server, (∀ f ∈ fs, validData f) → (∀ q, p.portDist q = none) →
      p.port < 65536 →
      (runListen p handle fs).port = (p.port + fs.length) % 65536 ∧
      (∀ q, (runListen p handle fs).portDist q = none) ∧
      (runListen p handle fs).upHandle = p.upHandle ∧
      (runListen p handle fs).UpDev = p.UpDev ∧
      (runListen p handle fs).GatewayDev = p.GatewayDev ∧
      (runListen p handle fs).ListenPort = p.ListenPort := by
  induction fs with
  | nil =>
    intro p hv hd hp16
    refine ⟨?_, hd, rfl, rfl, rfl, rfl⟩
    simp [runListen, Nat.mod_eq_of_lt hp16]
  | cons f fs ih =>
    intro p hv hd hp16
    obtain ⟨hS, app, enc, ha, hpar, ht, hn⟩ := hv f (List.mem_cons_self f fs)
    obtain ⟨-, -, -, -, hpd, hport, hup, hdev, hlp, hgw, -⟩ :=
      handleListen_data p f handle app enc hS ha hpar ht hn
    have hport2 : (handleListen p f handle).1.port = (p.port + 1) % 65536 := by
      rw [hport, hd]
    have hd2 : ∀ q, (handleListen p f handle).1.portDist q = none := by
      intro q; rw [hpd]; exact hd q
    have hp2 : (handleListen p f handle).1.port < 65536 := by
      rw [hport2]; exact Nat.mod_lt _ (by norm_num)
    have hv2 : ∀ g ∈ fs, validData g := fun g hg => hv g (List.mem_cons_of_mem f hg)
    obtain ⟨ihport, ihpd, ihup, ihdev, ihgw, ihlp⟩ := ih _ hv2 hd2 hp2
    refine ⟨?_, ?_, ?_, ?_, ?_, ?_⟩ <;>
      simp only [runListen]
    · rw [ihport, hport2, List.length_cons]
      omega
    · exact ihpd
    · rw [ihup, hup]
    · rw [ihdev, hdev]
    · rw [ihgw, hgw]
    · rw [ihlp, hlp]

/-- C4: for every carrier frame with the SYN flag set arriving from a
client with TCP sequence number s, the ingress handler sets
`seqs[client] = 0` and `acks[client] = s + 1` and emits on the upstream
handle a SYN+ACK carrier TCP segment whose source port is the listen
port, destination port is the client's port, sequence number 0 and
acknowledgement number s + 1. -/
theorem C4_syn_handshake (p : Server) (ind : packetIndicator) (handle : Nat)
    (hS : ind.SYN = true) (hseq : ind.Seq + 1 < 4294967296) :
    (handleListen p ind handle).1.seqs ind.SrcAddr = some 0 ∧
    (handleListen p ind handle).1.acks ind.SrcAddr = some (ind.Seq + 1) ∧
    Event.emit p.upHandle (synackFrame p ind) ∈ (handleListen p ind handle).2 ∧
    (synackFrame p ind).trans =
      ⟨LayerKind.tcp, p.ListenPort, ind.SrcPort, 0, ind.Seq + 1, true, true⟩ := by
  have hmod : (ind.Seq + 1) % 4294967296 = ind.Seq + 1 := Nat.mod_eq_of_lt hseq
  refine ⟨?_, ?_, ?_, ?_⟩ <;>
    simp [handleListen, handshake, synackFrame, createTCPLayerSYNACK, serialize, hS,
      hmod, mapUpd]

/-- Witness for C4 at the concrete SYN of scenario 1 of §8. -/
theorem C4_syn_handshake_witness :
    (handleListen srv0 synFrameA 7).1.seqs synFrameA.SrcAddr = some 0 ∧
    (handleListen srv0 synFrameA 7).1.acks synFrameA.SrcAddr = some (synFrameA.Seq + 1) ∧
    Event.emit srv0.upHandle (synackFrame srv0 synFrameA) ∈ (handleListen srv0 synFrameA 7).2 ∧
    (synackFrame srv0 synFrameA).trans =
      ⟨LayerKind.tcp, srv0.ListenPort, synFrameA.SrcPort, 0, synFrameA.Seq + 1, true, true⟩ :=
  C4_syn_handshake srv0 synFrameA 7 rfl (by decide)

/-- C8: an upstream frame whose reverse key is absent from the reverse
NAT table is dropped without any emission, without any log line and
without any change to the shared state. -/
theorem C8_nat_miss_silent_noop (p : Server) (ind : packetIndicator)
    (hmiss : p.nat ⟨ind.DstIP, ind.DstPort, ind.SrcIP, ind.SrcPort,
      ind.TransportLayerType⟩ = none) :
    handleUpstream p ind = (p, []) := by
  simp [handleUpstream, hmiss]

/-- Witness for C8 at a concrete upstream reply with no reverse entry. -/
theorem C8_nat_miss_silent_noop_witness :
    srv0.nat ⟨replyMiss.DstIP, replyMiss.DstPort, replyMiss.SrcIP, replyMiss.SrcPort,
      replyMiss.TransportLayerType⟩ = none ∧
    handleUpstream srv0 replyMiss = (srv0, []) :=
  ⟨rfl, C8_nat_miss_silent_noop srv0 replyMiss rfl⟩

/-- C9: on a non-SYN carrier segment with a payload, the client ack entry
is advanced by the payload length before the payload is parsed; when the
inner parse fails the frame is dropped with an error log, and the final
state keeps the ack advance (it is not rolled back). -/
theorem C9_ack_advance_not_rolled_back (p : Server) (ind : packetIndicator)
    (handle : Nat) (app : appPayload)
    (hS : ind.SYN = false) (ha : ind.ApplicationLayer = some app)
    (hp : app.parsed = none) :
    handleListen p ind handle =
      ({ p with acks := (mapUpd p.acks ind.SrcAddr ((mapGet p.acks ind.SrcAddr + app.len) % 4294967296)) },
       [Event.logError "handle listen: parse encapped packet error"]) := by
  simp [handleListen, parseEncappedPacket, hS, ha, hp]

/-- Witness for C9 at a concrete unparsable data segment. -/
theorem C9_ack_advance_not_rolled_back_witness :
    handleListen srv0 dataNoSyn 7 =
      ({ srv0 with acks := (mapUpd srv0.acks dataNoSyn.SrcAddr ((mapGet srv0.acks dataNoSyn.SrcAddr + 20) % 4294967296)) },
       [Event.logError "handle listen: parse encapped packet error"]) :=
  C9_ack_advance_not_rolled_back srv0 dataNoSyn 7 ⟨20, none⟩ rfl rfl rfl

/-- C10: on every successfully parsed and supported ingress data packet
(not only the first of a flow) the reverse NAT entry is (re)written under
a key whose source IP is the string form of the upstream device's IPv4
address; when the inner packet is IPv6 the frame actually emitted carries
the upstream IPv6 address as its source, so key and emitted identity
differ. -/
theorem C10_nat_key_uses_ipv4_string (p : Server) (ind : packetIndicator)
    (handle : Nat) (app : appPayload) (enc : innerPacket)
    (hS : ind.SYN = false) (ha : ind.ApplicationLayer = some app)
    (hp : app.parsed = some enc)
    (ht : enc.TransportLayerType = LayerKind.tcp ∨ enc.TransportLayerType = LayerKind.udp)
    (hn : enc.NetworkLayerType = LayerKind.ipv4 ∨ enc.NetworkLayerType = LayerKind.ipv6) :
    (handleListen p ind handle).1.nat (qReverse p enc) = some (natEntry ind enc handle) ∧
    (qReverse p enc).SrcIP = p.UpDev.ipv4 ∧
    (enc.NetworkLayerType = LayerKind.ipv6 →
      Event.emit p.upHandle (ingressFrame p ind enc) ∈ (handleListen p ind handle).2 ∧
      (ingressFrame p ind enc).net.SrcIP = p.UpDev.ipv6) := by
  obtain ⟨hev, hnat, -, -, -, -, -, -, -, -, -⟩ :=
    handleListen_data p ind handle app enc hS ha hp ht hn
  refine ⟨?_, rfl, ?_⟩
  · rw [hnat, mapUpd_self]
  · intro h6
    refine ⟨?_, ?_⟩
    · rw [hev]; exact List.Mem.head _
    · simp [ingressFrame, serialize, h6, createNetworkLayerIPv6]

/-- Witness for C10 at a concrete IPv6-in-IPv4 data segment. -/
theorem C10_nat_key_uses_ipv4_string_witness :
    (handleListen srv0 frame6 7).1.nat (qReverse srv0 inner6) =
      some (natEntry frame6 inner6 7) ∧
    (qReverse srv0 inner6).SrcIP = srv0.UpDev.ipv4 ∧
    (inner6.NetworkLayerType = LayerKind.ipv6 →
      Event.emit srv0.upHandle (ingressFrame srv0 frame6 inner6) ∈
        (handleListen srv0 frame6 7).2 ∧
      (ingressFrame srv0 frame6 inner6).net.SrcIP = srv0.UpDev.ipv6) :=
  C10_nat_key_uses_ipv4_string srv0 frame6 7 ⟨60, some inner6⟩ inner6 rfl rfl rfl
    (Or.inl rfl) (Or.inr rfl)

/-- C7: starting from port cursor 0 and an empty forward table, processing
a list of fully processed ingress data packets with pairwise distinct
inner flow keys emits, for the segment at position k, a frame whose
server-side source port is 49152 + (k mod 16384). -/
theorem C7_port_allocation_deterministic (p : Server) (handle : Nat)
    (frames : List packetIndicator) (k : Nat)
    (hport : p.port = 0) (hdist : ∀ q, p.portDist q = none)
    (hvalid : ∀ f ∈ frames, validData f)
    (hdistinct : frames.Pairwise (fun a b => innerKey a ≠ innerKey b))
    (hk : k < frames.length) :
    ∃ fr, Event.emit p.upHandle fr ∈
        (handleListen (runListen p handle (frames.take k))
          (frames.get ⟨k, hk⟩) handle).2 ∧
      fr.trans.SrcPort = 49152 + k % 16384 := by
  have hvk : validData (frames.get ⟨k, hk⟩) := hvalid _ (frames.get_mem k hk)
  obtain ⟨hS, app, enc, ha, hpar, ht, hn⟩ := hvk
  have htk : ∀ f ∈ frames.take k, validData f :=
    fun f hf => hvalid f (List.take_subset k frames hf)
  obtain ⟨hrp, hrpd, hrup, -, -, -⟩ :=
    runListen_frame handle (frames.take k) p htk hdist (by rw [hport]; norm_num)
  obtain ⟨hev, -, -, -, -, -, -, -, -, -, -⟩ :=
    handleListen_data (runListen p handle (frames.take k)) (frames.get ⟨k, hk⟩)
      handle app enc hS ha hpar ht hn
  refine ⟨ingressFrame (runListen p handle (frames.take k)) (frames.get ⟨k, hk⟩) enc,
    ?_, ?_⟩
  · rw [hev, hrup]
    exact List.Mem.head _
  · have hlen : (frames.take k).length = k := by
      rw [List.length_take]
      exact Nat.min_eq_left (le_of_lt hk)
    simp only [ingressFrame, serialize]
    simp only [ingressPortOf, hrpd, Server.distPort]
    rw [hrp, hlen, hport]
    omega

/-- Witness for C7: two distinct flows through the same carrier, the
second one receiving port 49153 (scenario 4 of §8). -/
theorem C7_port_allocation_deterministic_witness :
    ∃ fr, Event.emit srv0.upHandle fr ∈
        (handleListen (runListen srv0 7 ([frame0, frame1].take 1))
          ([frame0, frame1].get ⟨1, by decide⟩) 7).2 ∧
      fr.trans.SrcPort = 49152 + 1 % 16384 :=
  C7_port_allocation_deterministic srv0 7 [frame0, frame1] 1 rfl (fun _ => rfl)
    (by
      intro f hf
      rcases List.mem_cons.mp hf with h | h
      · subst h
        exact ⟨rfl, ⟨40, some inner0⟩, inner0, rfl, rfl, Or.inr rfl, Or.inl rfl⟩
      · rcases List.mem_singleton.mp h with h
        subst h
        exact ⟨rfl, ⟨40, some inner1⟩, inner1, rfl, rfl, Or.inr rfl, Or.inl rfl⟩)
    (by
      refine List.Pairwise.cons ?_ ?_
      · intro b hb
        rcases List.mem_singleton.mp hb with h
        subst h
        decide
      · refine List.Pairwise.cons ?_ List.Pairwise.nil
        intro b hb
        cases hb)
    (by decide)

/-- C1 fails on the code: on an upstream frame whose reverse-NAT lookup
succeeds, the egress handler consults the never-assigned link-layer kind
variable, whose zero value matches neither the loopback nor the Ethernet
arm, so it logs an error and returns with the state unchanged and nothing
written to the NAT entry's handle. -/
theorem C1_egress_link_layer_never_assigned :
    srv1.nat ⟨reply0.DstIP, reply0.DstPort, reply0.SrcIP, reply0.SrcPort,
      reply0.TransportLayerType⟩ = some (natEntry frame0 inner0 7) ∧
    handleUpstream srv1 reply0 =
      (srv1, [Event.logError "handle upstream: create link layer type not support"]) :=
  ⟨rfl, rfl⟩

/-- C2 fails on the code: after the ingress handler fully processes (and
emits) a data segment, the forward table still has no entry for the inner
flow key, because `handleListen` never assigns `portDist`; only the
cursor advances. -/
theorem C2_portdist_never_inserted :
    (handleListen srv0 frame0 7).1.portDist (qForward frame0 inner0) = none ∧
    Event.emit srv0.upHandle (ingressFrame srv0 frame0 inner0) ∈
      (handleListen srv0 frame0 7).2 ∧
    (handleListen srv0 frame0 7).1.port = 1 :=
  ⟨rfl, List.Mem.head _, rfl⟩

/-- C3 fails on the code: after one fully processed ingress data segment
the reverse NAT table holds an entry while the forward table is entirely
empty, and the `src_port` field of the NAT key is the inner source port
55555, not the allocated port 49152; the key carrying the allocated port
has no entry. -/
theorem C3_nat_and_portdist_diverge :
    (handleListen srv0 frame0 7).1.nat (qReverse srv0 inner0) =
      some (natEntry frame0 inner0 7) ∧
    (∀ q, (handleListen srv0 frame0 7).1.portDist q = none) ∧
    (qReverse srv0 inner0).SrcPort = 55555 ∧
    ingressPortOf srv0 frame0 inner0 = 49152 ∧
    (handleListen srv0 frame0 7).1.nat
      ⟨srv0.UpDev.ipv4, 49152, inner0.DstIP, inner0.DstPort,
        inner0.TransportLayerType⟩ = none :=
  ⟨rfl, fun _ => rfl, rfl, rfl, rfl⟩

/-- C5 fails on the code at a concrete run: a repeated SYN resets the
client's ack from 6 down to 1 (and its seq to 0), so the counters are not
monotone over the process lifetime; and a data segment from a client that
never sent a SYN creates that client's ack entry, so initialization is
not tied to SYN receipt. -/
theorem C5_counterexample_reset_and_init :
    mapGet (handleListen srv0 synFrameA 7).1.acks (addrStr "10.0.0.9" 4242) = 6 ∧
    mapGet (handleListen (handleListen srv0 synFrameA 7).1 synFrameB 7).1.acks
      (addrStr "10.0.0.9" 4242) = 1 ∧
    srv0.acks (addrStr "10.0.0.8" 4343) = none ∧
    (handleListen srv0 dataNoSyn 7).1.acks (addrStr "10.0.0.8" 4343) = some 20 :=
  ⟨rfl, rfl, rfl, rfl⟩

/-- C5 amended: outside SYN handshakes the per-client counters never
decrease (absent 32-bit wraparound): a non-SYN ingress step leaves `seqs`
unchanged and only advances `acks`, and an egress step in the source as it
stands never changes either map. -/
theorem C5_amended_monotone_outside_syn (p : Server) (f g : packetIndicator)
    (handle : Nat) (hS : f.SYN = false)
    (hw : ∀ app, f.ApplicationLayer = some app →
      mapGet p.acks f.SrcAddr + app.len < 4294967296) :
    (∀ k, mapGet p.seqs k ≤ mapGet (handleListen p f handle).1.seqs k) ∧
    (∀ k, mapGet p.acks k ≤ mapGet (handleListen p f handle).1.acks k) ∧
    (handleUpstream p g).1.seqs = p.seqs ∧
    (handleUpstream p g).1.acks = p.acks := by
  obtain ⟨hseqs, hacks⟩ := handleListen_acks_seqs p f handle hS
  refine ⟨?_, ?_, ?_, ?_⟩
  · intro k; rw [hseqs]
  · intro k
    rcases hacks with h | ⟨app, happ, h⟩
    · rw [h]
    · rw [h, mapGet_upd]
      split
      · next hk =>
        subst hk
        have hb := hw app happ
        rw [Nat.mod_eq_of_lt hb]
        exact Nat.le_add_right _ _
      · exact le_rfl
  · rw [handleUpstream_state]
  · rw [handleUpstream_state]

/-- Witness for the amended C5 at a concrete non-SYN ingress step and a
concrete egress step. -/
theorem C5_amended_monotone_outside_syn_witness :
    (∀ k, mapGet srv0.seqs k ≤ mapGet (handleListen srv0 dataNoSyn 7).1.seqs k) ∧
    (∀ k, mapGet srv0.acks k ≤ mapGet (handleListen srv0 dataNoSyn 7).1.acks k) ∧
    (handleUpstream srv0 replyMiss).1.seqs = srv0.seqs ∧
    (handleUpstream srv0 replyMiss).1.acks = srv0.acks :=
  C5_amended_monotone_outside_syn srv0 dataNoSyn replyMiss 7 rfl
    (fun app happ => by
      have h2 : some (⟨20, none⟩ : appPayload) = some app := happ
      injection h2 with h
      rw [← h]
      decide)

/-- C6 fails on the code at a concrete run: an inner packet with TTL 0 is
not dropped; it is emitted on the upstream handle with the 8-bit wrapped
TTL 255. -/
theorem C6_counterexample_ttl_zero_emitted :
    innerT.TTL = 0 ∧
    (handleListen srv0 frameT 7).2 =
      [Event.emit srv0.upHandle (ingressFrame srv0 frameT innerT),
       Event.logInfo "Redirect an inbound packet"] ∧
    (ingressFrame srv0 frameT innerT).net.TTL = 255 :=
  ⟨rfl, rfl, rfl⟩

/-- C6 amended: the ingress IPv4 data path always emits, with the rebuilt
TTL equal to the inner TTL minus one computed in 8-bit wrapping
arithmetic: the ordinary decrement for inner TTL in 1..255, and 255 (not
a drop) for inner TTL 0. -/
theorem C6_amended_ttl_wrapping_decrement (p : Server) (ind : packetIndicator)
    (handle : Nat) (app : appPayload) (enc : innerPacket)
    (hS : ind.SYN = false) (ha : ind.ApplicationLayer = some app)
    (hp : app.parsed = some enc)
    (ht : enc.TransportLayerType = LayerKind.tcp ∨ enc.TransportLayerType = LayerKind.udp)
    (hn : enc.NetworkLayerType = LayerKind.ipv4) :
    Event.emit p.upHandle (ingressFrame p ind enc) ∈ (handleListen p ind handle).2 ∧
    (ingressFrame p ind enc).net.TTL = (enc.TTL + 255) % 256 ∧
    (1 ≤ enc.TTL → enc.TTL ≤ 255 → (ingressFrame p ind enc).net.TTL = enc.TTL - 1) ∧
    (enc.TTL = 0 → (ingressFrame p ind enc).net.TTL = 255) := by
  obtain ⟨hev, -, -, -, -, -, -, -, -, -, -⟩ :=
    handleListen_data p ind handle app enc hS ha hp ht (Or.inl hn)
  have httl : (ingressFrame p ind enc).net.TTL = (enc.TTL + 255) % 256 := by
    simp [ingressFrame, serialize, hn, createNetworkLayerIPv4]
  refine ⟨?_, httl, ?_, ?_⟩
  · rw [hev]; exact List.Mem.head _
  · intro h1 h2; rw [httl]; omega
  · intro h0; rw [httl, h0]

/-- Witness for the amended C6 at the concrete inner packet with TTL 64,
whose rebuilt TTL is 63. -/
theorem C6_amended_ttl_wrapping_decrement_witness :
    Event.emit srv0.upHandle (ingressFrame srv0 frame0 inner0) ∈
      (handleListen srv0 frame0 7).2 ∧
    (ingressFrame srv0 frame0 inner0).net.TTL = (inner0.TTL + 255) % 256 ∧
    (1 ≤ inner0.TTL → inner0.TTL ≤ 255 →
      (ingressFrame srv0 frame0 inner0).net.TTL = inner0.TTL - 1) ∧
    (inner0.TTL = 0 → (ingressFrame srv0 frame0 inner0).net.TTL = 255) :=
  C6_amended_ttl_wrapping_decrement srv0 frame0 7 ⟨40, some inner0⟩ inner0 rfl rfl rfl
    (Or.inr rfl) rfl
